import Mathlib

/-!
Shallow embedding of `lsst/sims/coordUtils` (Astrometry.py and the
chip-name lookup interface exercised by tests/testCameraUtils.py).

Python floats are modelled as exact rationals (ℚ).  The external
positional-astronomy library `palpy` (and the transcendental `numpy`
functions) are opaque to this repository: they are modelled as an
abstract record of functions `Ext`, parameterised over the types of the
star-independent parameter blocks returned by `pal.mappa` and
`pal.aoppa`.  Mutation of a caller's numpy array (which Python performs
in place) is modelled by returning the final contents of that array as
an extra component of the result.
-/

namespace CoordUtils

/-- External library surface used by Astrometry.py.  `P` is the type of
the star-independent mean-to-apparent parameter block produced by
`pal.mappa`; `A` is the type of the apparent-to-observed parameter block
produced by `pal.aoppa`.  `cos` models `numpy.cos`.  `pal.aopqk` returns
the 5-tuple (azimuth, zenith, hourAngle, decOut, raOut); `pal.de2h`
returns the pair (azimuth, elevation). -/
structure Ext (P A : Type) where
  epj : ℚ → ℚ
  pm : ℚ → ℚ → ℚ → ℚ → ℚ → ℚ → ℚ → ℚ → ℚ × ℚ
  mappa : ℚ → ℚ → P
  mapqk : ℚ → ℚ → ℚ → ℚ → ℚ → ℚ → P → ℚ × ℚ
  mapqkz : ℚ → ℚ → P → ℚ × ℚ
  aoppa : ℚ → ℚ → ℚ → ℚ → ℚ → ℚ → ℚ → ℚ → ℚ → ℚ → ℚ → ℚ → A
  aopqk : ℚ → ℚ → A → ℚ × ℚ × ℚ × ℚ × ℚ
  de2h : ℚ → ℚ → ℚ → ℚ × ℚ
  gmsta : ℚ → ℚ → ℚ
  cos : ℚ → ℚ

/-- Observation-site parameters (`self.site` in Astrometry.py). -/
structure Site where
  longitude : ℚ
  latitude : ℚ
  height : ℚ
  xPolar : ℚ
  yPolar : ℚ
  meanTemperature : ℚ
  meanPressure : ℚ
  meanHumidity : ℚ
  lapseRate : ℚ

/-- The pieces of `self` that AstrometryBase methods read: the catalog
columns raJ2000/decJ2000, `self.db_obj.epoch`, `self.obs_metadata.mjd`
and `self.site`. -/
structure AstroState where
  raJ2000 : List ℚ
  decJ2000 : List ℚ
  epoch : ℚ
  mjd : ℚ
  site : Site

/-- Value of the IEEE double `math.pi` / `numpy.pi` as a rational. -/
def piQ : ℚ := 3.141592653589793

/-- Python float modulo for a positive modulus:
`x % m = x - m * floor (x / m)`. -/
def pymod (x m : ℚ) : ℚ := x - m * ⌊x / m⌋

/-- AstrometryBase.calcLast (Astrometry.py lines 517-524):
`D = pal.gmsta(mjd, 0.); D += long; D = D % (2*pi); return D`. -/
def calcLast {P A : Type} (ext : Ext P A) (mjd long : ℚ) : ℚ :=
  pymod (ext.gmsta mjd 0 + long) (2 * piQ)

/-- AstrometryBase.applyProperMotion (Astrometry.py lines 146-206).
The first loop clamps the caller's `parallax` numpy array in place:
each entry below 0.00045 arcsec is overwritten with 0.00045.  The
Julian epoch fed to `pal.pm` comes from `self.obs_metadata.mjd`; the
`MJD` argument is never read.  The result models the returned
(raOut, decOut) together with the final contents of the caller's
`parallax` array. -/
def applyProperMotion {P A : Type} (ext : Ext P A) (st : AstroState)
    (ra dec pm_ra pm_dec parallax v_rad : List ℚ)
    (EP0 MJD : ℚ) : List ℚ × List ℚ × List ℚ :=
  let parallaxF := parallax.map (fun p => if p < 0.00045 then 0.00045 else p)
  let julianEpoch := ext.epj st.mjd
  let outs := (List.range ra.length).map (fun i =>
    if (1e-10 : ℚ) < |pm_ra.getD i 0| ∨ (1e-10 : ℚ) < |pm_dec.getD i 0| then
      ext.pm (ra.getD i 0) (dec.getD i 0) (pm_ra.getD i 0)
        (pm_dec.getD i 0 / ext.cos (dec.getD i 0)) (parallaxF.getD i 0)
        (v_rad.getD i 0) EP0 julianEpoch
    else
      (ra.getD i 0, dec.getD i 0))
  (outs.map (·.1), outs.map (·.2), parallaxF)

/-- Error message raised by applyMeanApparentPlace on a length mismatch
(Astrometry.py lines 271-273):
`'in Astrometry.py:applyMeanApparentPlace len(ra) %d len(dec) %d '`. -/
def mapErrMsg (lenRa lenDec : Nat) : String :=
  "in Astrometry.py:applyMeanApparentPlace len(ra) " ++ toString lenRa
    ++ " len(dec) " ++ toString lenDec ++ " "

/-- AstrometryBase.applyMeanApparentPlace (Astrometry.py lines 233-323).
Raises (modelled as `Except.error`) when `len(ra) != len(dec)`; the four
optional arrays default to zero-filled arrays of length `len(ra)`; each
star goes through `pal.mapqk` when any of its proper motion, parallax or
radial velocity exceeds `pm_tol = 1.0e-9` in magnitude, and through
`pal.mapqkz` otherwise. -/
def applyMeanApparentPlace {P A : Type} (ext : Ext P A)
    (ra dec : List ℚ) (pm_ra pm_dec parallax v_rad : Option (List ℚ))
    (Epoch0 MJD : ℚ) : Except String (List ℚ × List ℚ) :=
  if ra.length ≠ dec.length then
    .error (mapErrMsg ra.length dec.length)
  else
    let pmRa := pm_ra.getD (List.replicate ra.length 0)
    let pmDec := pm_dec.getD (List.replicate ra.length 0)
    let vRad := v_rad.getD (List.replicate ra.length 0)
    let plx := parallax.getD (List.replicate ra.length 0)
    let prms := ext.mappa Epoch0 MJD
    let outs := (List.range ra.length).map (fun i =>
      if (1e-9 : ℚ) < |pmRa.getD i 0| ∨ (1e-9 : ℚ) < |pmDec.getD i 0| ∨
          (1e-9 : ℚ) < |plx.getD i 0| ∨ (1e-9 : ℚ) < |vRad.getD i 0| then
        ext.mapqk (ra.getD i 0) (dec.getD i 0) (pmRa.getD i 0)
          (pmDec.getD i 0) (plx.getD i 0) (vRad.getD i 0) prms
      else
        ext.mapqkz (ra.getD i 0) (dec.getD i 0) prms)
    .ok (outs.map (·.1), outs.map (·.2))

/-- Return shape of applyMeanObservedPlace: a pair `(raOut, decOut)`
when `altAzHr` is False, a quadruple `(raOut, decOut, alt, az)` when
`altAzHr` is True. -/
inductive MeanObsResult where
  | pair (raOut decOut : List ℚ)
  | quad (raOut decOut alt az : List ℚ)
deriving DecidableEq

/-- AstrometryBase.applyMeanObservedPlace (Astrometry.py lines 325-426).
`pal.aoppa` is fed the site parameters, with pressure and humidity
replaced by 0 when `includeRefraction` is False; each star goes through
`pal.aopqk`, with `raOut = output[4]` and `decOut = output[3]`; when
`altAzHr` is True, `pal.de2h(hourAngle, decOut[i], latitude)` supplies
`alt = output[1]` and `az = output[0]`. -/
def applyMeanObservedPlace {P A : Type} (ext : Ext P A) (site : Site)
    (ra dec : List ℚ) (MJD : ℚ) (includeRefraction altAzHr : Bool)
    (wavelength : ℚ) : MeanObsResult :=
  let dut : ℚ := 0.3
  let obsPrms :=
    if includeRefraction then
      ext.aoppa MJD dut site.longitude site.latitude site.height
        site.xPolar site.yPolar site.meanTemperature site.meanPressure
        site.meanHumidity wavelength site.lapseRate
    else
      ext.aoppa MJD dut site.longitude site.latitude site.height
        site.xPolar site.yPolar site.meanTemperature 0 0
        wavelength site.lapseRate
  let outs := (List.range ra.length).map (fun i =>
    ext.aopqk (ra.getD i 0) (dec.getD i 0) obsPrms)
  let raOut := outs.map (fun o => o.2.2.2.2)
  let decOut := outs.map (fun o => o.2.2.2.1)
  if altAzHr then
    let altAz := outs.map (fun o => ext.de2h o.2.2.1 o.2.2.2.1 site.latitude)
    .quad raOut decOut (altAz.map (·.2)) (altAz.map (·.1))
  else
    .pair raOut decOut

/-- Conversion factor `degPerRadian = 180.0/numpy.pi` used by
correctCoordinates. -/
def degPerRadian : ℚ := 180 / piQ

/-- AstrometryBase.correctCoordinates (Astrometry.py lines 428-471).
Reads raJ2000/decJ2000 from the catalog, applies
applyMeanApparentPlace with `Epoch0 = self.db_obj.epoch` and
`MJD = self.obs_metadata.mjd`, feeds the result to
applyMeanObservedPlace (with the same `MJD` and the caller's
`includeRefraction`; `altAzHr` is left at its False default and
`wavelength` at 5000), and multiplies by `180/pi` when `inDegrees`.
The unreachable quadruple case models Python's tuple-unpack failure. -/
def correctCoordinates {P A : Type} (ext : Ext P A) (st : AstroState)
    (pm_ra pm_dec parallax v_rad : Option (List ℚ))
    (includeRefraction inDegrees : Bool) :
    Except String (List ℚ × List ℚ) :=
  let ra := st.raJ2000
  let dec := st.decJ2000
  let ep0 := st.epoch
  let mjd := st.mjd
  match applyMeanApparentPlace ext ra dec pm_ra pm_dec parallax v_rad ep0 mjd with
  | .error e => .error e
  | .ok (raApparent, decApparent) =>
    match applyMeanObservedPlace ext st.site raApparent decApparent mjd
        includeRefraction false 5000 with
    | .quad _ _ _ _ => .error "too many values to unpack"
    | .pair raOut decOut =>
      if inDegrees then
        .ok (raOut.map (· * degPerRadian), decOut.map (· * degPerRadian))
      else
        .ok (raOut, decOut)

/-- Decides whether `sub` occurs at the head of `s`. -/
def isPref : List Char → List Char → Bool
  | [], _ => true
  | _ :: _, [] => false
  | a :: as, b :: bs => a == b && isPref as bs

/-- Decides whether `sub` occurs contiguously somewhere in `s`. -/
def isSeg (sub : List Char) : List Char → Bool
  | [] => sub.isEmpty
  | b :: bs => isPref sub (b :: bs) || isSeg sub bs

/-- Substring test on strings: `strContains s sub` holds when `sub`
occurs contiguously in `s`. -/
def strContains (s sub : String) : Bool := isSeg sub.toList s.toList

/-- Coordinate argument as the chip-name functions see it: either a
numpy array or a plain Python list of values. -/
inductive NpOrList where
  | npArray (xs : List ℚ)
  | pyList (xs : List ℚ)
deriving DecidableEq

/-- Observation metadata as constructed in tests/testCameraUtils.py:
`unrefractedRA`/`unrefractedDec` always given, `mjd` and `rotSkyPos`
optional. -/
structure ObservationMetaData where
  unrefractedRA : ℚ
  unrefractedDec : ℚ
  mjd : Option ℚ
  rotSkyPos : Option ℚ

/-- Modelled from the spec: the source of `findChipNameFromPupilCoords`
is not under src/ (only tests/testCameraUtils.py exercises it).  Per the
spec's error-behavior section and the test assertions: it raises when a
coordinate argument is not a numpy array (message stating that numpy
arrays are required), when the two arrays have different lengths
(message naming xPupils and yPupils), and when no camera is defined
(message 'No camera defined'); the chip lookup itself is external
camera geometry and is abstracted to a `Unit` success payload.  The
test shows the numpy-array check fires even with no camera passed, so
it precedes the camera check. -/
def findChipNameFromPupilCoords {Cam : Type} (xPupils yPupils : NpOrList)
    (camera : Option Cam) : Except String Unit :=
  match xPupils, yPupils with
  | .npArray xs, .npArray ys =>
    if xs.length ≠ ys.length then
      .error ("you passed " ++ toString xs.length ++ " xPupils and "
        ++ toString ys.length ++ " yPupils to findChipName")
    else
      match camera with
      | none => .error "No camera defined.  Cannot run findChipName."
      | some _ => .ok ()
  | _, _ =>
    .error "findChipNameFromPupilCoords requires numpy arrays of xPupils and yPupils"

/-- Modelled from the spec: the source of `_findChipNameFromRaDec` is
not under src/ (only tests/testCameraUtils.py exercises it).  Per the
spec's error-behavior section and the test assertions: it raises when a
coordinate argument is not a numpy array, when the arrays have
different lengths (message naming RAs and Decs), when the
ObservationMetaData or the epoch is missing, when the
ObservationMetaData lacks an mjd or a rotSkyPos (message naming the
missing field and findChipName), and when no camera is defined
('No camera defined'); the test shows the numpy-array check fires even
with no camera passed, and the camera check is performed by the
delegated pupil-coordinate lookup, hence last.  The computation of
pupil coordinates and the chip lookup are external and abstracted to a
`Unit` success payload. -/
def findChipNameFromRaDecRad {Cam : Type} (ra dec : NpOrList)
    (obs_metadata : Option ObservationMetaData) (epoch : Option ℚ)
    (camera : Option Cam) : Except String Unit :=
  match ra, dec with
  | .npArray ras, .npArray decs =>
    if ras.length ≠ decs.length then
      .error ("you passed " ++ toString ras.length ++ " RAs and "
        ++ toString decs.length ++ " Decs to findChipName")
    else
      match obs_metadata with
      | none => .error "you need to pass an ObservationMetaData into findChipName"
      | some obs =>
        match epoch with
        | none => .error "you need to pass an epoch into findChipName"
        | some _ =>
          match obs.mjd with
          | none => .error "the ObservationMetaData passed to findChipName needs an mjd"
          | some _ =>
            match obs.rotSkyPos with
            | none => .error "the ObservationMetaData passed to findChipName needs a rotSkyPos"
            | some _ =>
              match camera with
              | none => .error "No camera defined.  Cannot run findChipName."
              | some _ => .ok ()
  | _, _ =>
    .error "findChipName requires numpy arrays of RAs and Decs"

/-- Modelled from the spec: `findChipNameFromRaDec` converts its
RA/Dec from degrees to radians and delegates to
`_findChipNameFromRaDec` (`findChipNameFromRaDecRad` here); numpy's
degree-to-radian conversion yields a numpy array. -/
def findChipNameFromRaDec {Cam : Type} (ra dec : NpOrList)
    (obs_metadata : Option ObservationMetaData) (epoch : Option ℚ)
    (camera : Option Cam) : Except String Unit :=
  let toRadians : NpOrList → NpOrList := fun a =>
    match a with
    | .npArray xs => .npArray (xs.map (· * piQ / 180))
    | .pyList xs => .npArray (xs.map (· * piQ / 180))
  findChipNameFromRaDecRad (toRadians ra) (toRadians dec)
    obs_metadata epoch camera

/-- Trivial instantiation of the external library, used to evaluate the
glue code on concrete inputs. -/
def extZero : Ext Unit Unit where
  epj := fun _ => 0
  pm := fun _ _ _ _ _ _ _ _ => (0, 0)
  mappa := fun _ _ => ()
  mapqk := fun _ _ _ _ _ _ _ => (0, 0)
  mapqkz := fun _ _ _ => (0, 0)
  aoppa := fun _ _ _ _ _ _ _ _ _ _ _ _ => ()
  aopqk := fun _ _ _ => (0, 0, 0, 0, 0)
  de2h := fun _ _ _ => (0, 0)
  gmsta := fun _ _ => 0
  cos := fun _ => 1

/-- A concrete observation site for evaluating the glue code. -/
def site0 : Site where
  longitude := 0
  latitude := 0
  height := 0
  xPolar := 0
  yPolar := 0
  meanTemperature := 0
  meanPressure := 0
  meanHumidity := 0
  lapseRate := 0

/-- A concrete catalog/observation state for evaluating the glue code. -/
def st0 : AstroState where
  raJ2000 := [0]
  decJ2000 := [0]
  epoch := 2000
  mjd := 2015
  site := site0

lemma isPref_append_self (sub r : List Char) : isPref sub (sub ++ r) = true := by
  induction sub with
  | nil => rfl
  | cons a as ih => simp [isPref, ih]

lemma isSeg_append (l sub r : List Char) : isSeg sub (l ++ (sub ++ r)) = true := by
  induction l with
  | nil =>
    cases sub with
    | nil => cases r <;> simp [isSeg, isPref, List.isEmpty]
    | cons a as => simpa [isSeg] using Or.inl (isPref_append_self (a :: as) r)
  | cons b bs ih =>
    simp only [List.cons_append, isSeg, Bool.or_eq_true]
    exact Or.inr ih

lemma strContains_of_append (x sub y : String) :
    strContains (x ++ sub ++ y) sub = true := by
  have h : (x ++ sub ++ y).toList = x.toList ++ (sub.toList ++ y.toList) := by
    simp [String.toList, String.data_append, List.append_assoc]
  simp only [strContains, h]
  exact isSeg_append _ _ _

lemma getD_map_range (n i : Nat) (hi : i < n) (g : Nat → ℚ) :
    ((List.range n).map g).getD i 0 = g i := by
  rw [List.getD_eq_getElem?_getD, List.getElem?_map, List.getElem?_range hi]
  rfl

lemma map_id_of_forall {α : Type} (l : List α) (f : α → α)
    (h : ∀ x ∈ l, f x = x) : l.map f = l := by
  induction l with
  | nil => rfl
  | cons a as ih =>
    simp only [List.map_cons]
    rw [h a (by simp), ih (fun x hx => h x (by simp [hx]))]

lemma pymod_bounds (x m : ℚ) (hm : 0 < m) : 0 ≤ pymod x m ∧ pymod x m < m := by
  have hm0 : m ≠ 0 := ne_of_gt hm
  have h : pymod x m = m * Int.fract (x / m) := by
    unfold pymod Int.fract
    field_simp
  constructor
  · rw [h]
    exact mul_nonneg hm.le (Int.fract_nonneg _)
  · rw [h]
    calc m * Int.fract (x / m) < m * 1 :=
          mul_lt_mul_of_pos_left (Int.fract_lt_one _) hm
      _ = m := mul_one m

/-- C10: for every mjd and every longitude (including negative ones),
calcLast returns a value in the half-open interval [0, 2*pi): the
Greenwich sidereal time plus longitude is reduced modulo 2*pi before
being returned. -/
theorem calcLast_in_range {P A : Type} (ext : Ext P A) (mjd long : ℚ) :
    0 ≤ calcLast ext mjd long ∧ calcLast ext mjd long < 2 * piQ := by
  have h2 : (0 : ℚ) < 2 * piQ := by norm_num [piQ]
  exact pymod_bounds _ _ h2

/-- C8: the result of applyProperMotion does not depend on its MJD
parameter — for a fixed object state and fixed coordinate arrays, two
calls that differ only in the MJD argument return equal results (the
Julian epoch is derived from self.obs_metadata.mjd, not from the MJD
argument). -/
theorem applyProperMotion_mjd_irrelevant {P A : Type} (ext : Ext P A)
    (st : AstroState) (ra dec pm_ra pm_dec parallax v_rad : List ℚ)
    (EP0 mjd1 mjd2 : ℚ) :
    applyProperMotion ext st ra dec pm_ra pm_dec parallax v_rad EP0 mjd1
      = applyProperMotion ext st ra dec pm_ra pm_dec parallax v_rad EP0 mjd2 := rfl

/-- C2 counterexample: applyProperMotion does not leave the caller's
parallax array unchanged — with input parallax [0], the array holds
[0.00045] after the call (Astrometry.py lines 184-186 clamp it in
place). -/
theorem applyProperMotion_mutates_parallax :
    (applyProperMotion extZero st0 [0] [0] [0] [0] [0] [0] 2000 2015).2.2
      ≠ [0] := by
  unfold applyProperMotion
  norm_num

/-- C2 amended: applyProperMotion mutates the caller's parallax array
in place, overwriting each entry below 0.00045 arcsec with 0.00045; the
array is left unchanged exactly when every entry is at least 0.00045. -/
theorem applyProperMotion_parallax_clamped {P A : Type} (ext : Ext P A)
    (st : AstroState) (ra dec pm_ra pm_dec parallax v_rad : List ℚ)
    (EP0 MJD : ℚ) :
    (applyProperMotion ext st ra dec pm_ra pm_dec parallax v_rad EP0 MJD).2.2
        = parallax.map (fun p => if p < 0.00045 then 0.00045 else p) ∧
      (parallax.all (fun p => (0.00045 : ℚ) ≤ p) = true →
        (applyProperMotion ext st ra dec pm_ra pm_dec parallax v_rad EP0 MJD).2.2
          = parallax) := by
  refine ⟨rfl, fun h => ?_⟩
  show parallax.map (fun p => if p < 0.00045 then 0.00045 else p) = parallax
  simp only [List.all_eq_true, decide_eq_true_eq] at h
  exact map_id_of_forall _ _ (fun p hp => if_neg (not_lt.mpr (h p hp)))

/-- C2 amended, witness: a parallax array with every entry at least
0.00045 arcsec comes back unchanged. -/
theorem applyProperMotion_parallax_clamped_witness :
    ([1] : List ℚ).all (fun p => (0.00045 : ℚ) ≤ p) = true ∧
      (applyProperMotion extZero st0 [0] [0] [0] [0] [1] [0] 2000 2015).2.2
        = [1] :=
  ⟨by norm_num,
    (applyProperMotion_parallax_clamped extZero st0 [0] [0] [0] [0] [1] [0]
      2000 2015).2 (by norm_num)⟩

/-- C9: applyProperMotion is the identity on stars with negligible
proper motion — at every index where both proper motions are at most
1e-10 in magnitude, the returned raOut and decOut equal the input ra
and dec exactly, regardless of the parallax and radial-velocity values
there. -/
theorem applyProperMotion_negligible_identity {P A : Type} (ext : Ext P A)
    (st : AstroState) (ra dec pm_ra pm_dec parallax v_rad : List ℚ)
    (EP0 MJD : ℚ) (i : Nat) (hi : i < ra.length)
    (h1 : |pm_ra.getD i 0| ≤ 1e-10) (h2 : |pm_dec.getD i 0| ≤ 1e-10) :
    (applyProperMotion ext st ra dec pm_ra pm_dec parallax v_rad EP0 MJD).1.getD i 0
        = ra.getD i 0 ∧
      (applyProperMotion ext st ra dec pm_ra pm_dec parallax v_rad EP0 MJD).2.1.getD i 0
        = dec.getD i 0 := by
  unfold applyProperMotion
  simp only [List.map_map]
  rw [getD_map_range _ _ hi, getD_map_range _ _ hi]
  have hcond : ¬ ((1e-10 : ℚ) < |pm_ra.getD i 0| ∨ (1e-10 : ℚ) < |pm_dec.getD i 0|) := by
    push_neg
    exact ⟨h1, h2⟩
  simp only [Function.comp_apply, if_neg hcond]
  exact ⟨trivial, trivial⟩

/-- C9 witness: a star with zero proper motion but nonzero parallax and
radial velocity keeps its catalog ra and dec. -/
theorem applyProperMotion_negligible_identity_witness :
    (0 : Nat) < ([3] : List ℚ).length ∧
      |([0] : List ℚ).getD 0 0| ≤ 1e-10 ∧
      (applyProperMotion extZero st0 [3] [4] [0] [0] [2] [5] 2000 2015).1.getD 0 0 = 3 ∧
      (applyProperMotion extZero st0 [3] [4] [0] [0] [2] [5] 2000 2015).2.1.getD 0 0 = 4 := by
  refine ⟨by norm_num, by norm_num, ?_⟩
  have h := applyProperMotion_negligible_identity extZero st0 [3] [4] [0] [0] [2] [5]
    2000 2015 0 (by norm_num) (by norm_num) (by norm_num)
  simpa using h

lemma strContains_of_parts (s x sub y : String) (h : s = x ++ sub ++ y) :
    strContains s sub = true := h ▸ strContains_of_append x sub y

lemma strContains_mapErrMsg (a b : Nat) :
    strContains (mapErrMsg a b) (toString a) = true ∧
      strContains (mapErrMsg a b) (toString b) = true := by
  constructor
  · exact strContains_of_parts _ "in Astrometry.py:applyMeanApparentPlace len(ra) "
      (toString a) (" len(dec) " ++ toString b ++ " ")
      (by simp only [mapErrMsg, String.append_assoc])
  · exact strContains_of_parts _
      ("in Astrometry.py:applyMeanApparentPlace len(ra) " ++ toString a ++ " len(dec) ")
      (toString b) " " (by simp only [mapErrMsg, String.append_assoc])

/-- C3: applyMeanApparentPlace raises on mismatched array lengths with a
message reporting both lengths, before producing any output; for arrays
of equal length this check does not raise (the call returns a result).
-/
theorem applyMeanApparentPlace_length_check {P A : Type} (ext : Ext P A)
    (ra dec : List ℚ) (pm_ra pm_dec parallax v_rad : Option (List ℚ))
    (Epoch0 MJD : ℚ) :
    (ra.length ≠ dec.length →
      applyMeanApparentPlace ext ra dec pm_ra pm_dec parallax v_rad Epoch0 MJD
          = .error (mapErrMsg ra.length dec.length) ∧
        strContains (mapErrMsg ra.length dec.length) (toString ra.length) = true ∧
        strContains (mapErrMsg ra.length dec.length) (toString dec.length) = true) ∧
    (ra.length = dec.length →
      ∃ out, applyMeanApparentPlace ext ra dec pm_ra pm_dec parallax v_rad Epoch0 MJD
        = .ok out) := by
  constructor
  · intro h
    refine ⟨?_, (strContains_mapErrMsg _ _).1, (strContains_mapErrMsg _ _).2⟩
    unfold applyMeanApparentPlace
    rw [if_pos h]
  · intro h
    unfold applyMeanApparentPlace
    rw [if_neg (by simp [h])]
    exact ⟨_, rfl⟩

/-- C3 witness: with two RAs and one Dec the call errors with the
message reporting lengths 2 and 1; with one RA and one Dec it returns a
result. -/
theorem applyMeanApparentPlace_length_check_witness :
    (([0, 0] : List ℚ).length ≠ ([0] : List ℚ).length ∧
      applyMeanApparentPlace extZero [0, 0] [0] none none none none 2000 2015
        = .error (mapErrMsg 2 1)) ∧
    (([0] : List ℚ).length = ([0] : List ℚ).length ∧
      ∃ out, applyMeanApparentPlace extZero [0] [0] none none none none 2000 2015
        = .ok out) := by
  constructor
  · exact ⟨by decide,
      ((applyMeanApparentPlace_length_check extZero [0, 0] [0] none none none none
        2000 2015).1 (by decide)).1⟩
  · exact ⟨rfl,
      (applyMeanApparentPlace_length_check extZero [0] [0] none none none none
        2000 2015).2 rfl⟩

/-- C6: the proper-motion, parallax, and radial-velocity arrays of
applyMeanApparentPlace are optional — omitting them (the None sentinel
default) returns the same result as passing explicit zero-filled arrays
of length len(ra). -/
theorem applyMeanApparentPlace_none_defaults {P A : Type} (ext : Ext P A)
    (ra dec : List ℚ) (Epoch0 MJD : ℚ) (h : ra.length = dec.length) :
    applyMeanApparentPlace ext ra dec none none none none Epoch0 MJD
      = applyMeanApparentPlace ext ra dec (some (List.replicate ra.length 0))
          (some (List.replicate ra.length 0)) (some (List.replicate ra.length 0))
          (some (List.replicate ra.length 0)) Epoch0 MJD := rfl

/-- C6 witness: equality of the omitted-argument call and the
zero-filled-argument call at a concrete equal-length input. -/
theorem applyMeanApparentPlace_none_defaults_witness :
    ([1] : List ℚ).length = ([2] : List ℚ).length ∧
      applyMeanApparentPlace extZero [1] [2] none none none none 2000 2015
        = applyMeanApparentPlace extZero [1] [2] (some (List.replicate 1 0))
            (some (List.replicate 1 0)) (some (List.replicate 1 0))
            (some (List.replicate 1 0)) 2000 2015 :=
  ⟨rfl, applyMeanApparentPlace_none_defaults extZero [1] [2] 2000 2015 rfl⟩

/-- C7: applyMeanObservedPlace returns exactly the pair
(raOut, decOut) when altAzHr is False and exactly the quadruple
(raOut, decOut, alt, az) when altAzHr is True, with the same raOut and
decOut in both cases for the same inputs and metadata. -/
theorem applyMeanObservedPlace_altAz_shape {P A : Type} (ext : Ext P A)
    (site : Site) (ra dec : List ℚ) (MJD : ℚ) (includeRefraction : Bool)
    (wavelength : ℚ) :
    ∃ raOut decOut alt az,
      applyMeanObservedPlace ext site ra dec MJD includeRefraction false wavelength
          = .pair raOut decOut ∧
        applyMeanObservedPlace ext site ra dec MJD includeRefraction true wavelength
          = .quad raOut decOut alt az := by
  exact ⟨_, _, _, _, rfl, rfl⟩

/-- C1: correctCoordinates applies applyMeanApparentPlace to the
catalog raJ2000/decJ2000 (with Epoch0 = db_obj.epoch and
MJD = obs_metadata.mjd), feeds that result to applyMeanObservedPlace
(same MJD, caller's includeRefraction), and returns the composed
result, converted to degrees when inDegrees is true. -/
theorem correctCoordinates_chain {P A : Type} (ext : Ext P A)
    (st : AstroState) (pm_ra pm_dec parallax v_rad : Option (List ℚ))
    (includeRefraction : Bool) (raApparent decApparent raOut decOut : List ℚ)
    (h1 : applyMeanApparentPlace ext st.raJ2000 st.decJ2000 pm_ra pm_dec parallax
        v_rad st.epoch st.mjd = .ok (raApparent, decApparent))
    (h2 : applyMeanObservedPlace ext st.site raApparent decApparent st.mjd
        includeRefraction false 5000 = .pair raOut decOut) :
    correctCoordinates ext st pm_ra pm_dec parallax v_rad includeRefraction true
        = .ok (raOut.map (· * degPerRadian), decOut.map (· * degPerRadian)) ∧
      correctCoordinates ext st pm_ra pm_dec parallax v_rad includeRefraction false
        = .ok (raOut, decOut) := by
  constructor <;> simp [correctCoordinates, h1, h2]

/-- C1 witness: the chain evaluated at a one-star catalog, with the
intermediate results computed concretely. -/
theorem correctCoordinates_chain_witness :
    applyMeanApparentPlace extZero st0.raJ2000 st0.decJ2000 none none none none
        st0.epoch st0.mjd = .ok ([0], [0]) ∧
      applyMeanObservedPlace extZero st0.site [0] [0] st0.mjd true false 5000
        = .pair [0] [0] ∧
      correctCoordinates extZero st0 none none none none true true
        = .ok ([(0 : ℚ) * degPerRadian], [(0 : ℚ) * degPerRadian]) ∧
      correctCoordinates extZero st0 none none none none true false
        = .ok ([0], [0]) := by
  have h1 : applyMeanApparentPlace extZero st0.raJ2000 st0.decJ2000 none none none
      none st0.epoch st0.mjd = .ok ([0], [0]) := by with_unfolding_all rfl
  have h2 : applyMeanObservedPlace extZero st0.site [0] [0] st0.mjd true false 5000
      = .pair [0] [0] := by with_unfolding_all rfl
  have h := correctCoordinates_chain extZero st0 none none none none true
    [0] [0] [0] [0] h1 h2
  exact ⟨h1, h2, h.1, h.2⟩

/-- C5: passing a Python list rather than a numpy array as either
coordinate argument of findChipNameFromPupilCoords or
_findChipNameFromRaDec raises synchronously with a message stating
that numpy arrays are required, regardless of which argument has the
wrong type. -/
theorem findChipName_numpy_required {Cam : Type} (camera : Option Cam)
    (xs ys : List ℚ) (other : NpOrList)
    (obs : Option ObservationMetaData) (epoch : Option ℚ) :
    (findChipNameFromPupilCoords (.pyList xs) other camera
        = .error "findChipNameFromPupilCoords requires numpy arrays of xPupils and yPupils" ∧
      findChipNameFromPupilCoords other (.pyList ys) camera
        = .error "findChipNameFromPupilCoords requires numpy arrays of xPupils and yPupils" ∧
      strContains
        "findChipNameFromPupilCoords requires numpy arrays of xPupils and yPupils"
        "numpy arrays" = true) ∧
    (findChipNameFromRaDecRad (.pyList xs) other obs epoch camera
        = .error "findChipName requires numpy arrays of RAs and Decs" ∧
      findChipNameFromRaDecRad other (.pyList ys) obs epoch camera
        = .error "findChipName requires numpy arrays of RAs and Decs" ∧
      strContains "findChipName requires numpy arrays of RAs and Decs"
        "numpy arrays" = true) := by
  refine ⟨⟨?_, ?_, by decide⟩, ⟨?_, ?_, by decide⟩⟩ <;> cases other <;> rfl

/-- C4: findChipNameFromRaDec and _findChipNameFromRaDec raise, with a
message naming the missing field, when the epoch, the
ObservationMetaData, the mjd or rotSkyPos fields of the
ObservationMetaData, or the camera ('No camera defined') is missing;
and a successful call is only possible when all of them are present. -/
theorem findChipName_missing_metadata {Cam : Type} (camera : Cam)
    (xs ys : List ℚ) (hlen : xs.length = ys.length)
    (obs : ObservationMetaData) (hmjd : obs.mjd.isSome = true)
    (hrot : obs.rotSkyPos.isSome = true) (epoch : ℚ) :
    (findChipNameFromRaDecRad (.npArray xs) (.npArray ys) (some obs) none
          (some camera)
        = .error "you need to pass an epoch into findChipName" ∧
      findChipNameFromRaDec (.npArray xs) (.npArray ys) (some obs) none
          (some camera)
        = .error "you need to pass an epoch into findChipName" ∧
      strContains "you need to pass an epoch into findChipName" "epoch" = true ∧
      strContains "you need to pass an epoch into findChipName" "findChipName"
        = true) ∧
    (findChipNameFromRaDecRad (.npArray xs) (.npArray ys) none (some epoch)
          (some camera)
        = .error "you need to pass an ObservationMetaData into findChipName" ∧
      findChipNameFromRaDec (.npArray xs) (.npArray ys) none (some epoch)
          (some camera)
        = .error "you need to pass an ObservationMetaData into findChipName" ∧
      strContains "you need to pass an ObservationMetaData into findChipName"
        "ObservationMetaData" = true) ∧
    (∀ obs2 : ObservationMetaData, obs2.mjd = none →
      findChipNameFromRaDecRad (.npArray xs) (.npArray ys) (some obs2)
          (some epoch) (some camera)
        = .error "the ObservationMetaData passed to findChipName needs an mjd" ∧
      findChipNameFromRaDec (.npArray xs) (.npArray ys) (some obs2)
          (some epoch) (some camera)
        = .error "the ObservationMetaData passed to findChipName needs an mjd") ∧
    strContains "the ObservationMetaData passed to findChipName needs an mjd"
      "mjd" = true ∧
    (∀ obs2 : ObservationMetaData, obs2.mjd.isSome = true →
        obs2.rotSkyPos = none →
      findChipNameFromRaDecRad (.npArray xs) (.npArray ys) (some obs2)
          (some epoch) (some camera)
        = .error
          "the ObservationMetaData passed to findChipName needs a rotSkyPos" ∧
      findChipNameFromRaDec (.npArray xs) (.npArray ys) (some obs2)
          (some epoch) (some camera)
        = .error
          "the ObservationMetaData passed to findChipName needs a rotSkyPos") ∧
    strContains "the ObservationMetaData passed to findChipName needs a rotSkyPos"
      "rotSkyPos" = true ∧
    (findChipNameFromRaDecRad (.npArray xs) (.npArray ys) (some obs) (some epoch)
          (none : Option Cam)
        = .error "No camera defined.  Cannot run findChipName." ∧
      findChipNameFromRaDec (.npArray xs) (.npArray ys) (some obs) (some epoch)
          (none : Option Cam)
        = .error "No camera defined.  Cannot run findChipName." ∧
      strContains "No camera defined.  Cannot run findChipName."
        "No camera defined" = true) ∧
    (∀ (ra dec : NpOrList) (obsOpt : Option ObservationMetaData)
        (epochOpt : Option ℚ) (camOpt : Option Cam) (u : Unit),
      findChipNameFromRaDecRad ra dec obsOpt epochOpt camOpt = .ok u →
        obsOpt ≠ none ∧ epochOpt ≠ none ∧ camOpt ≠ none ∧
          ∀ o, obsOpt = some o → o.mjd ≠ none ∧ o.rotSkyPos ≠ none) := by
  obtain ⟨m, hm⟩ := Option.isSome_iff_exists.mp hmjd
  obtain ⟨r, hr⟩ := Option.isSome_iff_exists.mp hrot
  have hlen2 : (xs.map (· * piQ / 180)).length = (ys.map (· * piQ / 180)).length := by
    simp [hlen]
  refine ⟨⟨?_, ?_, by decide, by decide⟩, ⟨?_, ?_, by decide⟩, ?_, by decide,
    ?_, by decide, ⟨?_, ?_, by decide⟩, ?_⟩
  · simp [findChipNameFromRaDecRad, hlen]
  · simp [findChipNameFromRaDec, findChipNameFromRaDecRad, hlen]
  · simp [findChipNameFromRaDecRad, hlen]
  · simp [findChipNameFromRaDec, findChipNameFromRaDecRad, hlen]
  · intro obs2 h2
    constructor
    · simp [findChipNameFromRaDecRad, hlen, h2]
    · simp [findChipNameFromRaDec, findChipNameFromRaDecRad, hlen, h2]
  · intro obs2 h2 h3
    obtain ⟨m2, hm2⟩ := Option.isSome_iff_exists.mp h2
    constructor
    · simp [findChipNameFromRaDecRad, hlen, hm2, h3]
    · simp [findChipNameFromRaDec, findChipNameFromRaDecRad, hlen, hm2, h3]
  · simp [findChipNameFromRaDecRad, hlen, hm, hr]
  · simp [findChipNameFromRaDec, findChipNameFromRaDecRad, hlen, hm, hr]
  · intro ra dec obsOpt epochOpt camOpt u hok
    cases ra with
    | pyList _ => simp [findChipNameFromRaDecRad] at hok
    | npArray ras =>
      cases dec with
      | pyList _ => simp [findChipNameFromRaDecRad] at hok
      | npArray decs =>
        by_cases hl : ras.length = decs.length
        · cases obsOpt with
          | none => simp [findChipNameFromRaDecRad, hl] at hok
          | some o =>
            cases epochOpt with
            | none => simp [findChipNameFromRaDecRad, hl] at hok
            | some e =>
              cases hmo : o.mjd with
              | none => simp [findChipNameFromRaDecRad, hl, hmo] at hok
              | some mo =>
                cases hro : o.rotSkyPos with
                | none => simp [findChipNameFromRaDecRad, hl, hmo, hro] at hok
                | some ro =>
                  cases camOpt with
                  | none => simp [findChipNameFromRaDecRad, hl, hmo, hro] at hok
                  | some c =>
                    refine ⟨by simp, by simp, by simp, ?_⟩
                    intro o2 ho2
                    cases ho2
                    exact ⟨by simp [hmo], by simp [hro]⟩
        · simp [findChipNameFromRaDecRad, hl] at hok

/-- C4 observation metadata instance used by the witness: mjd and
rotSkyPos both present. -/
def obsW : ObservationMetaData where
  unrefractedRA := 25
  unrefractedDec := 112
  mjd := some 42351
  rotSkyPos := some 35

/-- C4 witness: calling without an epoch, at a concrete complete
ObservationMetaData, errors with the message naming the epoch. -/
theorem findChipName_missing_metadata_witness :
    ([0] : List ℚ).length = ([0] : List ℚ).length ∧
      obsW.mjd.isSome = true ∧ obsW.rotSkyPos.isSome = true ∧
      findChipNameFromRaDecRad (.npArray [0]) (.npArray [0]) (some obsW) none
          (some ())
        = .error "you need to pass an epoch into findChipName" := by
  refine ⟨rfl, rfl, rfl, ?_⟩
  exact ((findChipName_missing_metadata () [0] [0] rfl obsW rfl rfl 2000).1).1

end CoordUtils
